import Mathlib

/-!
Shallow embedding of `cupy/cuda/thrust.pyx` (the Thrust wrapper of CuPy):
the `_MemoryManager` bridge with its two callbacks `cupy_malloc` and
`cupy_free`, the three dispatch entry points `sort`, `lexsort`, `argsort`
with their fp16 hardware gate, and `get_build_version`.

Python-level semantics are modelled explicitly: a raised exception is an
`Except.error` value, paired with the state the raising code left behind
(Python's `del d[k]` on a missing key raises `KeyError` and mutates
nothing; an exception inside `memory.alloc` propagates before any entry
is recorded).
-/

namespace CupyThrust

/-- Exceptions that the embedded code can raise, tagged by Python kind. -/
inductive PyError where
  | keyError : Nat → PyError
  | notImplementedError : String → PyError
  | typeError : String → PyError
  | runtimeError : String → PyError
  | memoryError : String → PyError
deriving DecidableEq, Repr

/-- A device allocation handle, as returned by `memory.alloc(size)`:
it carries the device address (`.ptr` in the source) and the size. -/
structure Alloc where
  ptr : Nat
  size : Nat
deriving DecidableEq, Repr

/-- The Python `dict` held by `_MemoryManager`, mapping an address to the
owned allocation.  Modelled as an association list in which an insert
replaces any previous binding of the same key. -/
abbrev Dict := List (Nat × Alloc)

/-- Membership test of a key, Python `k in d`. -/
def dictContains (d : Dict) (k : Nat) : Bool :=
  d.any (fun kv => kv.1 == k)

/-- Lookup, Python `d[k]` (as an `Option`). -/
def dictLookup (d : Dict) (k : Nat) : Option Alloc :=
  (d.find? (fun kv => kv.1 == k)).map (fun kv => kv.2)

/-- Removal of every binding of `k`; after `dictInsert` keys are unique,
so this is Python `del d[k]` when the key is present. -/
def dictErase (d : Dict) (k : Nat) : Dict :=
  d.filter (fun kv => kv.1 != k)

/-- Python `d[k] = v`: the old binding of `k` (if any) is replaced. -/
def dictInsert (d : Dict) (k : Nat) (v : Alloc) : Dict :=
  dictErase d k ++ [(k, v)]

/-- State of one `_MemoryManager` bridge instance: its `memory` dict.
`__init__` starts it empty. -/
structure MemoryManager where
  memory : Dict
deriving DecidableEq, Repr

/-- A fresh bridge, as built by `_MemoryManager()`. -/
def MemoryManager.init : MemoryManager := { memory := [] }

/-- Embedding of `cupy_malloc(m, size)`.  The external allocator
`memory.alloc` is a parameter: it takes its own hidden state `s : σ` and
the size, and either returns an allocation with the new allocator state
or raises.  If `size == 0` the function returns the null address `0`
without consulting the allocator; otherwise it calls `alloc`, records the
returned allocation in the dict keyed by its address, and returns that
address.  An allocator exception propagates with every state unchanged. -/
def cupy_malloc {σ : Type} (alloc : σ → Nat → Except PyError (Alloc × σ))
    (s : σ) (mm : MemoryManager) (size : Nat) :
    Except PyError Nat × MemoryManager × σ :=
  if size = 0 then
    (Except.ok 0, mm, s)
  else
    match alloc s size with
    | Except.error e => (Except.error e, mm, s)
    | Except.ok (mem, s2) =>
        (Except.ok mem.ptr, { memory := dictInsert mm.memory mem.ptr mem }, s2)

/-- Embedding of `cupy_free(m, ptr)`.  A null pointer returns at once.
Otherwise the body runs `del mm.memory[ptr]`: when the key is present the
entry is removed; when it is absent Python raises `KeyError` and the dict
is left unchanged. -/
def cupy_free (mm : MemoryManager) (ptr : Nat) :
    Except PyError Unit × MemoryManager :=
  if ptr = 0 then
    (Except.ok (), mm)
  else if dictContains mm.memory ptr then
    (Except.ok (), { memory := dictErase mm.memory ptr })
  else
    (Except.error (PyError.keyError ptr), mm)

/-- The type descriptor handed to `sort` / `lexsort` / `argsort`: one of
the fourteen dtypes the conditional chain recognises, or any other
descriptor (carrying its display name for the error message). -/
inductive Dtype where
  | int8 | uint8 | int16 | uint16 | int32 | uint32 | int64 | uint64
  | float16 | float32 | float64 | complex64 | complex128 | bool
  | other : String → Dtype
deriving DecidableEq, Repr

/-- The fourteen supported type tags (the `Dtype` constructors that are
not `other`). -/
inductive TypeTag where
  | int8 | uint8 | int16 | uint16 | int32 | uint32 | int64 | uint64
  | float16 | float32 | float64 | complex64 | complex128 | bool
deriving DecidableEq, Repr, Fintype

/-- View of a tag as a type descriptor. -/
def TypeTag.toDtype : TypeTag → Dtype
  | .int8 => .int8
  | .uint8 => .uint8
  | .int16 => .int16
  | .uint16 => .uint16
  | .int32 => .int32
  | .uint32 => .uint32
  | .int64 => .int64
  | .uint64 => .uint64
  | .float16 => .float16
  | .float32 => .float32
  | .float64 => .float64
  | .complex64 => .complex64
  | .complex128 => .complex128
  | .bool => .bool

/-- The distinct backend instantiations the chains can invoke: the
thirteen template instantiations `_sort[T]` (named by their
`common.cpy_*` type argument) plus the dedicated `_*_fp16` entry. -/
inductive Instantiation where
  | cpy_byte | cpy_ubyte | cpy_short | cpy_ushort | cpy_int | cpy_uint
  | cpy_long | cpy_ulong | fp16 | cpy_float | cpy_double
  | cpy_complex64 | cpy_complex128 | cpy_bool
deriving DecidableEq, Repr, Fintype

/-- The three Python entry points. -/
inductive Op where
  | sort | lexsort | argsort
deriving DecidableEq, Repr

/-- Observable events of one dispatcher call: the two capability queries
performed by the fp16 gate, and the invocation of one backend
instantiation. -/
inductive Event where
  | queryCapability
  | queryRuntimeVersion
  | backendCall : Op → Instantiation → Event
deriving DecidableEq, Repr

/-- The backend calls contained in a trace, in order. -/
def backendCallsOf (tr : List Event) : List (Op × Instantiation) :=
  tr.filterMap (fun e =>
    match e with
    | Event.backendCall o i => some (o, i)
    | _ => none)

/-- The capability / runtime-version queries contained in a trace. -/
def queriesOf (tr : List Event) : List Event :=
  tr.filter (fun e =>
    match e with
    | Event.queryCapability => true
    | Event.queryRuntimeVersion => true
    | _ => false)

/-- The device environment the fp16 gate queries:
`device.get_compute_capability()` and `runtime.runtimeGetVersion()`. -/
structure Device where
  computeCapability : Nat
  runtimeVersion : Nat
deriving DecidableEq, Repr

/-- Message of the fp16 `RuntimeError` in the source. -/
def fp16_message : String :=
  "either the GPU or the CUDA Toolkit does not support fp16"

/-- Embedding of the guard `if int(device.get_compute_capability()) < 53
or runtime.runtimeGetVersion() < 9020: raise RuntimeError(...)`.  The
Python `or` short-circuits, so the runtime version is queried only when
the capability check passes. -/
def fp16_gate (dev : Device) : Except PyError Unit × List Event :=
  if dev.computeCapability < 53 then
    (Except.error (PyError.runtimeError fp16_message), [Event.queryCapability])
  else if dev.runtimeVersion < 9020 then
    (Except.error (PyError.runtimeError fp16_message),
      [Event.queryCapability, Event.queryRuntimeVersion])
  else
    (Except.ok (), [Event.queryCapability, Event.queryRuntimeVersion])

/-- Error message of `sort` / `argsort` for an unsupported dtype. -/
def unsupportedArrayMsg (name : String) : String :=
  "Sorting arrays with dtype \x27" ++ name ++ "\x27 is not supported"

/-- Error message of `lexsort` for an unsupported dtype. -/
def unsupportedKeysMsg (name : String) : String :=
  "Sorting keys with dtype \x27" ++ name ++ "\x27 is not supported"

/-- Embedding of `sort(dtype, ...)`: the fp16 gate runs first when the
dtype is float16, then the conditional chain dispatches on the dtype,
with `NotImplementedError` in the final `else`. -/
def sort (dev : Device) (dtype : Dtype) : Except PyError Unit × List Event :=
  match (if dtype = Dtype.float16 then fp16_gate dev else (Except.ok (), [])) with
  | (Except.error e, tr) => (Except.error e, tr)
  | (Except.ok _, tr) =>
    match dtype with
    | .int8 => (Except.ok (), tr ++ [Event.backendCall .sort .cpy_byte])
    | .uint8 => (Except.ok (), tr ++ [Event.backendCall .sort .cpy_ubyte])
    | .int16 => (Except.ok (), tr ++ [Event.backendCall .sort .cpy_short])
    | .uint16 => (Except.ok (), tr ++ [Event.backendCall .sort .cpy_ushort])
    | .int32 => (Except.ok (), tr ++ [Event.backendCall .sort .cpy_int])
    | .uint32 => (Except.ok (), tr ++ [Event.backendCall .sort .cpy_uint])
    | .int64 => (Except.ok (), tr ++ [Event.backendCall .sort .cpy_long])
    | .uint64 => (Except.ok (), tr ++ [Event.backendCall .sort .cpy_ulong])
    | .float16 => (Except.ok (), tr ++ [Event.backendCall .sort .fp16])
    | .float32 => (Except.ok (), tr ++ [Event.backendCall .sort .cpy_float])
    | .float64 => (Except.ok (), tr ++ [Event.backendCall .sort .cpy_double])
    | .complex64 => (Except.ok (), tr ++ [Event.backendCall .sort .cpy_complex64])
    | .complex128 => (Except.ok (), tr ++ [Event.backendCall .sort .cpy_complex128])
    | .bool => (Except.ok (), tr ++ [Event.backendCall .sort .cpy_bool])
    | .other s =>
        (Except.error (PyError.notImplementedError (unsupportedArrayMsg s)), tr)

/-- Embedding of `lexsort(dtype, ...)`: same gate and chain shape as
`sort`, but the final `else` raises `TypeError`. -/
def lexsort (dev : Device) (dtype : Dtype) : Except PyError Unit × List Event :=
  match (if dtype = Dtype.float16 then fp16_gate dev else (Except.ok (), [])) with
  | (Except.error e, tr) => (Except.error e, tr)
  | (Except.ok _, tr) =>
    match dtype with
    | .int8 => (Except.ok (), tr ++ [Event.backendCall .lexsort .cpy_byte])
    | .uint8 => (Except.ok (), tr ++ [Event.backendCall .lexsort .cpy_ubyte])
    | .int16 => (Except.ok (), tr ++ [Event.backendCall .lexsort .cpy_short])
    | .uint16 => (Except.ok (), tr ++ [Event.backendCall .lexsort .cpy_ushort])
    | .int32 => (Except.ok (), tr ++ [Event.backendCall .lexsort .cpy_int])
    | .uint32 => (Except.ok (), tr ++ [Event.backendCall .lexsort .cpy_uint])
    | .int64 => (Except.ok (), tr ++ [Event.backendCall .lexsort .cpy_long])
    | .uint64 => (Except.ok (), tr ++ [Event.backendCall .lexsort .cpy_ulong])
    | .float16 => (Except.ok (), tr ++ [Event.backendCall .lexsort .fp16])
    | .float32 => (Except.ok (), tr ++ [Event.backendCall .lexsort .cpy_float])
    | .float64 => (Except.ok (), tr ++ [Event.backendCall .lexsort .cpy_double])
    | .complex64 => (Except.ok (), tr ++ [Event.backendCall .lexsort .cpy_complex64])
    | .complex128 => (Except.ok (), tr ++ [Event.backendCall .lexsort .cpy_complex128])
    | .bool => (Except.ok (), tr ++ [Event.backendCall .lexsort .cpy_bool])
    | .other s =>
        (Except.error (PyError.typeError (unsupportedKeysMsg s)), tr)

/-- Embedding of `argsort(dtype, ...)`: same gate and chain shape as
`sort`, `NotImplementedError` in the final `else`. -/
def argsort (dev : Device) (dtype : Dtype) : Except PyError Unit × List Event :=
  match (if dtype = Dtype.float16 then fp16_gate dev else (Except.ok (), [])) with
  | (Except.error e, tr) => (Except.error e, tr)
  | (Except.ok _, tr) =>
    match dtype with
    | .int8 => (Except.ok (), tr ++ [Event.backendCall .argsort .cpy_byte])
    | .uint8 => (Except.ok (), tr ++ [Event.backendCall .argsort .cpy_ubyte])
    | .int16 => (Except.ok (), tr ++ [Event.backendCall .argsort .cpy_short])
    | .uint16 => (Except.ok (), tr ++ [Event.backendCall .argsort .cpy_ushort])
    | .int32 => (Except.ok (), tr ++ [Event.backendCall .argsort .cpy_int])
    | .uint32 => (Except.ok (), tr ++ [Event.backendCall .argsort .cpy_uint])
    | .int64 => (Except.ok (), tr ++ [Event.backendCall .argsort .cpy_long])
    | .uint64 => (Except.ok (), tr ++ [Event.backendCall .argsort .cpy_ulong])
    | .float16 => (Except.ok (), tr ++ [Event.backendCall .argsort .fp16])
    | .float32 => (Except.ok (), tr ++ [Event.backendCall .argsort .cpy_float])
    | .float64 => (Except.ok (), tr ++ [Event.backendCall .argsort .cpy_double])
    | .complex64 => (Except.ok (), tr ++ [Event.backendCall .argsort .cpy_complex64])
    | .complex128 => (Except.ok (), tr ++ [Event.backendCall .argsort .cpy_complex128])
    | .bool => (Except.ok (), tr ++ [Event.backendCall .argsort .cpy_bool])
    | .other s =>
        (Except.error (PyError.notImplementedError (unsupportedArrayMsg s)), tr)

/-- The tag-to-instantiation table of the three conditional chains. -/
def tagInst : TypeTag → Instantiation
  | .int8 => .cpy_byte
  | .uint8 => .cpy_ubyte
  | .int16 => .cpy_short
  | .uint16 => .cpy_ushort
  | .int32 => .cpy_int
  | .uint32 => .cpy_uint
  | .int64 => .cpy_long
  | .uint64 => .cpy_ulong
  | .float16 => .fp16
  | .float32 => .cpy_float
  | .float64 => .cpy_double
  | .complex64 => .cpy_complex64
  | .complex128 => .cpy_complex128
  | .bool => .cpy_bool

/-- One callback invocation the native backend makes through the bridge
while a call is running: an allocation request or a free request. -/
inductive BridgeOp where
  | malloc : Nat → BridgeOp
  | free : Nat → BridgeOp
deriving DecidableEq, Repr

/-- State of one call's bridge together with ghost history: the dict,
the external allocator state, the addresses `cupy_malloc` has returned,
the addresses it has recorded in the dict (successes with size > 0), and
the addresses `cupy_free` has removed from the dict. -/
structure TraceState (σ : Type) where
  mm : MemoryManager
  s : σ
  returned : List Nat
  recorded : List Nat
  removed : List Nat
deriving DecidableEq, Repr

/-- Start of a call: a fresh bridge and empty history. -/
def initTrace {σ : Type} (s : σ) : TraceState σ :=
  { mm := MemoryManager.init, s := s, returned := [], recorded := [],
    removed := [] }

/-- Effect of one backend callback on the call state.  The Cython
callbacks cannot propagate a Python exception to the native caller, so
after a raising callback the run continues from the state the body left
behind. -/
def runOp {σ : Type} (alloc : σ → Nat → Except PyError (Alloc × σ))
    (st : TraceState σ) : BridgeOp → TraceState σ
  | BridgeOp.malloc size =>
    match cupy_malloc alloc st.s st.mm size with
    | (Except.ok addr, mm2, s2) =>
        { mm := mm2, s := s2, returned := st.returned ++ [addr],
          recorded := st.recorded ++ (if size = 0 then [] else [addr]),
          removed := st.removed }
    | (Except.error _, mm2, s2) =>
        { mm := mm2, s := s2, returned := st.returned,
          recorded := st.recorded, removed := st.removed }
  | BridgeOp.free ptr =>
    match cupy_free st.mm ptr with
    | (Except.ok _, mm2) =>
        { mm := mm2, s := st.s, returned := st.returned,
          recorded := st.recorded,
          removed := st.removed ++ (if ptr = 0 then [] else [ptr]) }
    | (Except.error _, mm2) =>
        { mm := mm2, s := st.s, returned := st.returned,
          recorded := st.recorded, removed := st.removed }

/-- A whole sequence of backend callbacks, run left to right.  A backend
call that fails partway through is a prefix of the intended sequence, so
quantifying over all sequences covers the error paths as well. -/
def runOps {σ : Type} (alloc : σ → Nat → Except PyError (Alloc × σ))
    (st : TraceState σ) (ops : List BridgeOp) : TraceState σ :=
  ops.foldl (runOp alloc) st

/-- Modelled from the spec: destruction of the `_MemoryManager` when the
call completes is carried out by the host runtime together with the
allocation objects of `cupy.cuda.memory`, neither of which is part of
this file; per the spec, when the bridge is destroyed "any still-live
entries are released automatically".  Teardown therefore releases
exactly the allocations still present in the dict. -/
def bridgeTeardown (mm : MemoryManager) : List Alloc :=
  mm.memory.map (fun kv => kv.2)

/-- A concrete external allocator used to instantiate the trace
theorems: its state is the next fresh address, starting from 1, so it
never returns the null address and never fails. -/
def natAlloc (s : Nat) (size : Nat) : Except PyError (Alloc × Nat) :=
  Except.ok ({ ptr := s, size := size }, s + 1)

/-- Every dict entry is keyed by its allocation's address. -/
def keyedByPtr (mm : MemoryManager) : Prop :=
  ∀ kv ∈ mm.memory, kv.1 = kv.2.ptr

/-- Every non-null address `cupy_malloc` has returned is still a key of
the dict or has been removed by a `cupy_free` call with that address. -/
def liveOrRemoved {σ : Type} (st : TraceState σ) : Prop :=
  ∀ a ∈ st.returned, a ≠ 0 →
    dictContains st.mm.memory a = true ∨ a ∈ st.removed

/-- Every address recorded in the dict is still a key of the dict or has
been removed by a `cupy_free` call with that address. -/
def recordedLive {σ : Type} (st : TraceState σ) : Prop :=
  ∀ a ∈ st.recorded,
    dictContains st.mm.memory a = true ∨ a ∈ st.removed

/-- Combined invariant of a running call. -/
def Inv {σ : Type} (st : TraceState σ) : Prop :=
  keyedByPtr st.mm ∧ liveOrRemoved st ∧ recordedLive st

/-- Embedding of `get_build_version()`: it returns the build-time
constant `THRUST_VERSION` and touches nothing.  The constant and a world
state are parameters, so that determinism, absence of side effects and
absence of failure are expressible. -/
def get_build_version {W : Type} (THRUST_VERSION : Int) (w : W) :
    Except PyError Int × W :=
  (Except.ok THRUST_VERSION, w)

/-! Helper lemmas about the dict operations and the call invariant. -/

theorem dictContains_iff (d : Dict) (a : Nat) :
    dictContains d a = true ↔ ∃ kv ∈ d, kv.1 = a := by
  simp [dictContains, List.any_eq_true, beq_iff_eq]

theorem dictContains_erase_iff (d : Dict) (k a : Nat) :
    dictContains (dictErase d k) a = true ↔
      dictContains d a = true ∧ a ≠ k := by
  simp only [dictContains_iff, dictErase, List.mem_filter, bne_iff_ne,
    decide_eq_true_eq]
  constructor
  · rintro ⟨kv, ⟨hmem, hne⟩, heq⟩
    exact ⟨⟨kv, hmem, heq⟩, heq ▸ hne⟩
  · rintro ⟨⟨kv, hmem, heq⟩, hne⟩
    exact ⟨kv, ⟨hmem, heq ▸ hne⟩, heq⟩

theorem dictContains_insert_iff (d : Dict) (k : Nat) (v : Alloc) (a : Nat) :
    dictContains (dictInsert d k v) a = true ↔
      a = k ∨ dictContains d a = true := by
  simp only [dictInsert, dictContains, List.any_append]
  by_cases h : a = k
  · subst h
    simp [dictContains]
  · have h2 : dictContains (dictErase d k) a = true ↔ dictContains d a = true := by
      rw [dictContains_erase_iff]
      exact ⟨fun hx => hx.1, fun hx => ⟨hx, h⟩⟩
    simp only [dictContains] at h2
    simp [h2, h, Ne.symm h, beq_iff_eq]

theorem runOp_preserves {σ : Type}
    (alloc : σ → Nat → Except PyError (Alloc × σ))
    (st : TraceState σ) (op : BridgeOp) (h : Inv st) :
    Inv (runOp alloc st op) := by
  obtain ⟨hkey, hlive, hrec⟩ := h
  cases op with
  | malloc size =>
    by_cases hs : size = 0
    · subst hs
      have hred : runOp alloc st (BridgeOp.malloc 0) =
          { mm := st.mm, s := st.s, returned := st.returned ++ [0],
            recorded := st.recorded ++ [], removed := st.removed } := rfl
      rw [hred]
      refine ⟨hkey, ?_, ?_⟩
      · intro a ha ha0
        rcases List.mem_append.mp ha with ha | ha
        · exact hlive a ha ha0
        · simp at ha
          exact absurd ha ha0
      · intro a ha
        rw [List.append_nil] at ha
        exact hrec a ha
    · cases halloc : alloc st.s size with
      | error e =>
        simp only [runOp, cupy_malloc, if_neg hs, halloc]
        exact ⟨hkey, hlive, hrec⟩
      | ok p =>
        obtain ⟨mem, s2⟩ := p
        simp only [runOp, cupy_malloc, if_neg hs, halloc, if_neg hs]
        constructor
        · intro kv hkv
          simp only [dictInsert, List.mem_append, List.mem_singleton] at hkv
          rcases hkv with hkv | hkv
          · exact hkey kv (List.mem_of_mem_filter hkv)
          · subst hkv; rfl
        constructor
        · intro a ha ha0
          rcases List.mem_append.mp ha with ha | ha
          · rcases hlive a ha ha0 with hc | hr
            · exact Or.inl ((dictContains_insert_iff _ _ _ _).mpr (Or.inr hc))
            · exact Or.inr hr
          · simp only [List.mem_singleton] at ha
            exact Or.inl ((dictContains_insert_iff _ _ _ _).mpr (Or.inl ha))
        · intro a ha
          rcases List.mem_append.mp ha with ha | ha
          · rcases hrec a ha with hc | hr
            · exact Or.inl ((dictContains_insert_iff _ _ _ _).mpr (Or.inr hc))
            · exact Or.inr hr
          · simp only [List.mem_singleton] at ha
            exact Or.inl ((dictContains_insert_iff _ _ _ _).mpr (Or.inl ha))
  | free ptr =>
    by_cases hp : ptr = 0
    · subst hp
      have hred : runOp alloc st (BridgeOp.free 0) =
          { mm := st.mm, s := st.s, returned := st.returned,
            recorded := st.recorded, removed := st.removed ++ [] } := rfl
      rw [hred]
      refine ⟨hkey, ?_, ?_⟩
      · intro a ha ha0
        rw [List.append_nil]
        exact hlive a ha ha0
      · intro a ha
        rw [List.append_nil]
        exact hrec a ha
    · by_cases hc : dictContains st.mm.memory ptr = true
      · simp only [runOp, cupy_free, if_neg hp, hc, if_true, if_neg hp]
        constructor
        · intro kv hkv
          exact hkey kv (List.mem_of_mem_filter hkv)
        constructor
        · intro a ha ha0
          rcases hlive a ha ha0 with hcc | hr
          · by_cases hap : a = ptr
            · exact Or.inr (List.mem_append.mpr (Or.inr (by simp [hap])))
            · exact Or.inl ((dictContains_erase_iff _ _ _).mpr ⟨hcc, hap⟩)
          · exact Or.inr (List.mem_append.mpr (Or.inl hr))
        · intro a ha
          rcases hrec a ha with hcc | hr
          · by_cases hap : a = ptr
            · exact Or.inr (List.mem_append.mpr (Or.inr (by simp [hap])))
            · exact Or.inl ((dictContains_erase_iff _ _ _).mpr ⟨hcc, hap⟩)
          · exact Or.inr (List.mem_append.mpr (Or.inl hr))
      · simp only [runOp, cupy_free, if_neg hp, hc, if_false]
        exact ⟨hkey, hlive, hrec⟩

theorem runOps_preserves {σ : Type}
    (alloc : σ → Nat → Except PyError (Alloc × σ))
    (st : TraceState σ) (ops : List BridgeOp) (h : Inv st) :
    Inv (runOps alloc st ops) := by
  induction ops generalizing st with
  | nil => exact h
  | cons op rest ih =>
    exact ih (runOp alloc st op) (runOp_preserves alloc st op h)

theorem initTrace_inv {σ : Type} (s : σ) : Inv (initTrace s) := by
  refine ⟨?_, ?_, ?_⟩ <;> intro a ha <;> simp [initTrace, MemoryManager.init] at ha

theorem find?_erase_self (d : Dict) (k : Nat) :
    (dictErase d k).find? (fun kv => kv.1 == k) = none := by
  induction d with
  | nil => rfl
  | cons kv rest ih =>
    by_cases h : kv.1 = k
    · simp only [dictErase, List.filter_cons, h, bne_self_eq_false,
        Bool.false_eq_true, if_false] at ih ⊢
      exact ih
    · simp only [dictErase, List.filter_cons] at ih ⊢
      rw [if_pos (by simp [h]), List.find?_cons_of_neg _ (by simp [h])]
      exact ih

theorem find?_append_of_none (l1 l2 : Dict) (p : Nat × Alloc → Bool)
    (h : l1.find? p = none) : (l1 ++ l2).find? p = l2.find? p := by
  induction l1 with
  | nil => rfl
  | cons kv rest ih =>
    cases hp : p kv with
    | true =>
      rw [List.find?_cons_of_pos _ hp] at h
      exact absurd h (by simp)
    | false =>
      have hp2 : ¬ p kv = true := by simp [hp]
      rw [List.find?_cons_of_neg _ hp2] at h
      rw [List.cons_append, List.find?_cons_of_neg _ hp2]
      exact ih h

theorem dictLookup_insert_self (d : Dict) (k : Nat) (v : Alloc) :
    dictLookup (dictInsert d k v) k = some v := by
  unfold dictLookup dictInsert
  rw [find?_append_of_none _ _ _ (find?_erase_self d k)]
  simp

/-! Theorems settling the claims. -/

/-- C5: for every bridge state, `cupy_malloc` called with size 0 returns
the null address, makes no call to the external allocator (the outcome
is identical for any two allocators and the allocator state is
untouched), and leaves the bridge's dict unchanged. -/
theorem malloc_zero_noop {σ : Type}
    (alloc1 alloc2 : σ → Nat → Except PyError (Alloc × σ))
    (s : σ) (mm : MemoryManager) :
    cupy_malloc alloc1 s mm 0 = (Except.ok 0, mm, s)
    ∧ cupy_malloc alloc1 s mm 0 = cupy_malloc alloc2 s mm 0 :=
  ⟨rfl, rfl⟩

/-- C6: for every bridge state and size > 0, when the external allocator
returns an allocation, `cupy_malloc` records it in the dict keyed by its
address and returns exactly that address; the address looked up in the
new dict yields the recorded allocation. -/
theorem malloc_records_address {σ : Type}
    (alloc : σ → Nat → Except PyError (Alloc × σ)) (s : σ)
    (mm : MemoryManager) (size : Nat) (mem : Alloc) (s2 : σ)
    (hs : 0 < size) (ha : alloc s size = Except.ok (mem, s2)) :
    cupy_malloc alloc s mm size =
      (Except.ok mem.ptr,
        { memory := dictInsert mm.memory mem.ptr mem }, s2)
    ∧ dictLookup (dictInsert mm.memory mem.ptr mem) mem.ptr = some mem := by
  have hne : size ≠ 0 := by omega
  exact ⟨by simp [cupy_malloc, if_neg hne, ha],
    dictLookup_insert_self mm.memory mem.ptr mem⟩

/-- Witness for C6 at a concrete input: allocator `natAlloc` in state 5
serves a request of size 16 at address 5. -/
theorem malloc_records_address_witness :
    cupy_malloc natAlloc 5 MemoryManager.init 16 =
      (Except.ok (Alloc.mk 5 16).ptr,
        { memory := dictInsert MemoryManager.init.memory
            (Alloc.mk 5 16).ptr (Alloc.mk 5 16) }, 6)
    ∧ dictLookup (dictInsert MemoryManager.init.memory
        (Alloc.mk 5 16).ptr (Alloc.mk 5 16)) (Alloc.mk 5 16).ptr =
        some (Alloc.mk 5 16) :=
  malloc_records_address natAlloc 5 MemoryManager.init 16
    (Alloc.mk 5 16) 6 (by decide) rfl

/-- C10: for every size > 0, when the external allocator raises,
`cupy_malloc` propagates exactly that error and both the dict and the
allocator state are exactly as before the call. -/
theorem malloc_error_propagates {σ : Type}
    (alloc : σ → Nat → Except PyError (Alloc × σ)) (s : σ)
    (mm : MemoryManager) (size : Nat) (e : PyError)
    (hs : 0 < size) (ha : alloc s size = Except.error e) :
    cupy_malloc alloc s mm size = (Except.error e, mm, s) := by
  have hne : size ≠ 0 := by omega
  simp [cupy_malloc, if_neg hne, ha]

/-- Witness for C10: an always-failing allocator's out-of-memory error
comes back unchanged and the dict stays empty. -/
theorem malloc_error_propagates_witness :
    cupy_malloc
      (fun (_ : Unit) (_ : Nat) =>
        (Except.error (PyError.memoryError "out of memory") :
          Except PyError (Alloc × Unit)))
      () MemoryManager.init 16 =
      (Except.error (PyError.memoryError "out of memory"),
        MemoryManager.init, ()) :=
  malloc_error_propagates _ () MemoryManager.init 16
    (PyError.memoryError "out of memory") (by decide) rfl

/-- C9: `get_build_version` returns the build-time constant, leaves the
world untouched, never fails, and two consecutive calls return the same
value. -/
theorem get_build_version_pure {W : Type} (tv : Int) (w : W) :
    get_build_version tv w = (Except.ok tv, w)
    ∧ (get_build_version tv (get_build_version tv w).2).1 =
        (get_build_version tv w).1 :=
  ⟨rfl, rfl⟩

/-- C1 fails as stated: on the empty bridge, `cupy_free` of the non-null
absent address 1 raises `KeyError` instead of returning normally. -/
theorem cupy_free_absent_not_silent :
    dictContains MemoryManager.init.memory 1 = false
    ∧ (1 : Nat) ≠ 0
    ∧ cupy_free MemoryManager.init 1 =
        (Except.error (PyError.keyError 1), MemoryManager.init) :=
  ⟨rfl, by decide, rfl⟩

/-- C1 amended: `cupy_free` of the null address is a no-op; `cupy_free`
of a non-null address absent from the dict leaves the dict unchanged but
raises `KeyError` (the `del` of a missing key) rather than returning
normally. -/
theorem cupy_free_null_noop_absent_raises (mm : MemoryManager) (ptr : Nat) :
    cupy_free mm 0 = (Except.ok (), mm)
    ∧ (ptr ≠ 0 → dictContains mm.memory ptr = false →
        cupy_free mm ptr = (Except.error (PyError.keyError ptr), mm)) := by
  refine ⟨rfl, ?_⟩
  intro hne hc
  simp [cupy_free, if_neg hne, hc]

/-- Witness for C1 (amended) on the empty bridge with address 1. -/
theorem cupy_free_null_noop_absent_raises_witness :
    cupy_free MemoryManager.init 0 = (Except.ok (), MemoryManager.init)
    ∧ cupy_free MemoryManager.init 1 =
        (Except.error (PyError.keyError 1), MemoryManager.init) :=
  ⟨(cupy_free_null_noop_absent_raises MemoryManager.init 1).1,
    (cupy_free_null_noop_absent_raises MemoryManager.init 1).2
      (by decide) rfl⟩

/-- C2: on a capable device, each of the fourteen type tags makes
`sort`, `lexsort` and `argsort` invoke exactly the backend instantiation
of the table `tagInst` and no other, and `tagInst` is a bijection
between the fourteen tags and the fourteen instantiations (so there is
no widening or coercion between kinds). -/
theorem dispatch_bijective (t : TypeTag) (dev : Device)
    (hcc : 53 ≤ dev.computeCapability) (hrv : 9020 ≤ dev.runtimeVersion) :
    (backendCallsOf (sort dev t.toDtype).2 = [(Op.sort, tagInst t)]
      ∧ backendCallsOf (lexsort dev t.toDtype).2 = [(Op.lexsort, tagInst t)]
      ∧ backendCallsOf (argsort dev t.toDtype).2 = [(Op.argsort, tagInst t)])
    ∧ Function.Bijective tagInst := by
  have h1 : ¬ dev.computeCapability < 53 := Nat.not_lt.mpr hcc
  have h2 : ¬ dev.runtimeVersion < 9020 := Nat.not_lt.mpr hrv
  refine ⟨?_, by decide⟩
  cases t <;>
    simp [sort, lexsort, argsort, TypeTag.toDtype, tagInst, fp16_gate,
      backendCallsOf, h1, h2]

/-- Witness for C2 with the int32 tag on a device of capability 53 and
runtime 9020. -/
theorem dispatch_bijective_witness :
    (backendCallsOf (sort (Device.mk 53 9020) TypeTag.int32.toDtype).2 =
        [(Op.sort, tagInst TypeTag.int32)]
      ∧ backendCallsOf (lexsort (Device.mk 53 9020) TypeTag.int32.toDtype).2 =
        [(Op.lexsort, tagInst TypeTag.int32)]
      ∧ backendCallsOf (argsort (Device.mk 53 9020) TypeTag.int32.toDtype).2 =
        [(Op.argsort, tagInst TypeTag.int32)])
    ∧ Function.Bijective tagInst :=
  dispatch_bijective TypeTag.int32 (Device.mk 53 9020) (by decide) (by decide)

/-- C3: when the device capability is below 53 or the runtime version
below 9020, each of the three entry points called with float16 raises
the `RuntimeError` carrying the fp16 message before any backend call;
and for any dtype other than float16, none of the three entry points
performs a capability or runtime-version query. -/
theorem fp16_gate_behavior (dev : Device) (dt : Dtype) :
    ((dev.computeCapability < 53 ∨ dev.runtimeVersion < 9020) →
      ((sort dev Dtype.float16).1 =
          Except.error (PyError.runtimeError fp16_message)
        ∧ backendCallsOf (sort dev Dtype.float16).2 = [])
      ∧ ((lexsort dev Dtype.float16).1 =
          Except.error (PyError.runtimeError fp16_message)
        ∧ backendCallsOf (lexsort dev Dtype.float16).2 = [])
      ∧ ((argsort dev Dtype.float16).1 =
          Except.error (PyError.runtimeError fp16_message)
        ∧ backendCallsOf (argsort dev Dtype.float16).2 = []))
    ∧ (dt ≠ Dtype.float16 →
      queriesOf (sort dev dt).2 = []
        ∧ queriesOf (lexsort dev dt).2 = []
        ∧ queriesOf (argsort dev dt).2 = []) := by
  constructor
  · intro hbad
    by_cases h1 : dev.computeCapability < 53
    · simp [sort, lexsort, argsort, fp16_gate, backendCallsOf, h1]
    · have h2 : dev.runtimeVersion < 9020 := hbad.resolve_left h1
      simp [sort, lexsort, argsort, fp16_gate, backendCallsOf, h1, h2]
  · intro hne
    cases dt <;> first
      | exact absurd rfl hne
      | simp [sort, lexsort, argsort, queriesOf]

/-- Witness for C3 on a device of capability 52 with runtime 9020, and
the int32 dtype for the no-query half. -/
theorem fp16_gate_behavior_witness :
    ((sort (Device.mk 52 9020) Dtype.float16).1 =
        Except.error (PyError.runtimeError fp16_message))
    ∧ queriesOf (sort (Device.mk 52 9020) Dtype.int32).2 = [] :=
  ⟨(((fp16_gate_behavior (Device.mk 52 9020) Dtype.int32).1
      (Or.inl (by decide))).1).1,
    ((fp16_gate_behavior (Device.mk 52 9020) Dtype.int32).2
      (by decide)).1⟩

/-- C4: for a type descriptor matching none of the fourteen tags, `sort`
and `argsort` fail with `NotImplementedError` while `lexsort` fails with
the distinct `TypeError`, and in all three cases the event trace is
empty, so the failure happens before any backend call and hence before
any allocation through the bridge. -/
theorem unsupported_dtype_errors (dev : Device) (s : String) :
    sort dev (Dtype.other s) =
      (Except.error (PyError.notImplementedError (unsupportedArrayMsg s)), [])
    ∧ lexsort dev (Dtype.other s) =
      (Except.error (PyError.typeError (unsupportedKeysMsg s)), [])
    ∧ argsort dev (Dtype.other s) =
      (Except.error (PyError.notImplementedError (unsupportedArrayMsg s)), [])
    ∧ PyError.notImplementedError (unsupportedArrayMsg s) ≠
        PyError.typeError (unsupportedKeysMsg s) :=
  ⟨rfl, rfl, rfl, by simp⟩

/-- C7 fails as stated: the run consisting of one zero-size
`cupy_malloc` returns the null address 0, which is neither a key of the
dict nor was removed by any `cupy_free` call. -/
theorem returned_null_not_tracked :
    ¬ (∀ a ∈ (runOps natAlloc (initTrace 1) [BridgeOp.malloc 0]).returned,
        dictContains
          (runOps natAlloc (initTrace 1) [BridgeOp.malloc 0]).mm.memory a = true
        ∨ a ∈ (runOps natAlloc (initTrace 1) [BridgeOp.malloc 0]).removed) := by
  decide

/-- C7 amended: over every sequence of bridge callbacks on one fresh
bridge, every non-null address ever returned by `cupy_malloc` (that is,
every address of a size > 0 allocation) is either still a key of the
dict or has been removed by a `cupy_free` call with that same address;
the null address returned by a zero-size `cupy_malloc` never enters the
dict and is exempt. -/
theorem returned_live_or_removed {σ : Type}
    (alloc : σ → Nat → Except PyError (Alloc × σ)) (s : σ)
    (ops : List BridgeOp) (a : Nat)
    (ha : a ∈ (runOps alloc (initTrace s) ops).returned) (h0 : a ≠ 0) :
    dictContains (runOps alloc (initTrace s) ops).mm.memory a = true
    ∨ a ∈ (runOps alloc (initTrace s) ops).removed :=
  (runOps_preserves alloc (initTrace s) ops (initTrace_inv s)).2.1 a ha h0

/-- Witness for C7 (amended): allocate then free address 1. -/
theorem returned_live_or_removed_witness :
    dictContains
      (runOps natAlloc (initTrace 1)
        [BridgeOp.malloc 4, BridgeOp.free 1]).mm.memory 1 = true
    ∨ 1 ∈ (runOps natAlloc (initTrace 1)
        [BridgeOp.malloc 4, BridgeOp.free 1]).removed :=
  returned_live_or_removed natAlloc 1 [BridgeOp.malloc 4, BridgeOp.free 1] 1
    (by decide) (by decide)

/-- C8: over every sequence of bridge callbacks on one fresh bridge —
including sequences cut short by an error — teardown releases every
allocation still in the dict, and every address ever recorded through
the bridge was either removed by a `cupy_free` call or appears among the
allocations released at teardown, so nothing leaks. -/
theorem teardown_releases_all {σ : Type}
    (alloc : σ → Nat → Except PyError (Alloc × σ)) (s : σ)
    (ops : List BridgeOp) :
    (∀ kv ∈ (runOps alloc (initTrace s) ops).mm.memory,
        kv.2 ∈ bridgeTeardown (runOps alloc (initTrace s) ops).mm)
    ∧ ∀ a ∈ (runOps alloc (initTrace s) ops).recorded,
        a ∈ (runOps alloc (initTrace s) ops).removed
        ∨ ∃ al ∈ bridgeTeardown (runOps alloc (initTrace s) ops).mm,
            al.ptr = a := by
  obtain ⟨hkey, _, hrec⟩ :=
    runOps_preserves alloc (initTrace s) ops (initTrace_inv s)
  constructor
  · intro kv hkv
    exact List.mem_map.mpr ⟨kv, hkv, rfl⟩
  · intro a ha
    rcases hrec a ha with hc | hr
    · rcases (dictContains_iff _ _).mp hc with ⟨kv, hkv, hk⟩
      refine Or.inr ⟨kv.2, List.mem_map.mpr ⟨kv, hkv, rfl⟩, ?_⟩
      rw [← hkey kv hkv]
      exact hk
    · exact Or.inl hr

/-- Witness for C8: the backend allocates twice (addresses 1 and 2) and
frees once; address 2 is covered by the teardown release. -/
theorem teardown_releases_all_witness :
    2 ∈ (runOps natAlloc (initTrace 1)
        [BridgeOp.malloc 4, BridgeOp.malloc 8, BridgeOp.free 1]).removed
    ∨ ∃ al ∈ bridgeTeardown (runOps natAlloc (initTrace 1)
        [BridgeOp.malloc 4, BridgeOp.malloc 8, BridgeOp.free 1]).mm,
        al.ptr = 2 :=
  (teardown_releases_all natAlloc 1
    [BridgeOp.malloc 4, BridgeOp.malloc 8, BridgeOp.free 1]).2 2 (by decide)

end CupyThrust
